import Mathlib

/-!
# Verification of the rate limiter of webinar-buddy-bot

A shallow embedding of `src/rate_limiter.py` (class `RateLimiter`).

Modelling choices:

* Timestamps (`created_at`, the current time `now`) are integers, read as
  seconds of local time since some epoch; a local day is 86400 such seconds,
  so `_get_today_start` (local midnight of `now`) is `(now / 86400) * 86400`
  using flooring division.  The Python code compares ISO-8601 strings of
  local timestamps, whose lexicographic order agrees with this chronological
  order.
* The Supabase store is a list of rows of the `rate_limits` table plus a
  reachability flag.  A query against an unreachable store raises in Python;
  here it returns `none`, and every `try/except Exception` block of the
  Python source becomes a `match` on that option.  Exception text carried by
  Python's `str(e)` is modelled by a fixed marker string.
* Query builders (`.eq`, `.gte`, `.lt`) become a list of `QueryFilter`s applied
  conjunctively, as Supabase does.
* A successful `delete` returns the deleted rows in `result.data`, which the
  Python code measures with `len`; `storeDelete` returns that list together
  with the surviving store.
* Inserted rows carry no client-side `created_at`: the store stamps the row
  at insertion time, modelled by the `stamp` argument of `storeInsert`.
-/

/-- One row of the `rate_limits` table. -/
structure ActionRecord where
  user_id : String
  action_type : String
  created_at : Int
  metadata : List (String × String) := []
  deriving Repr, DecidableEq

/-- The Supabase-backed store: the rows of `rate_limits` plus whether the
store is reachable (an unreachable store makes every query raise). -/
structure Store where
  records : List ActionRecord
  reachable : Bool
  deriving Repr, DecidableEq

/-- One condition of a Supabase query builder chain on `rate_limits`. -/
inductive QueryFilter where
  | eqUser (v : String)
  | eqAction (v : String)
  | gteCreated (v : Int)
  | ltCreated (v : Int)
  deriving Repr, DecidableEq

/-- Whether a row satisfies one query condition. -/
def matchesFilter (r : ActionRecord) : QueryFilter → Bool
  | .eqUser v => r.user_id == v
  | .eqAction v => r.action_type == v
  | .gteCreated v => v ≤ r.created_at
  | .ltCreated v => r.created_at < v

/-- Whether a row satisfies every condition of a query. -/
def matchesAll (fs : List QueryFilter) (r : ActionRecord) : Bool :=
  fs.all (matchesFilter r)

/-- `table("rate_limits").select("*")....execute()`: the rows satisfying all
filters, or `none` when the store is unreachable (the query raises). -/
def runSelect (store : Store) (fs : List QueryFilter) : Option (List ActionRecord) :=
  if store.reachable then
    some (store.records.filter (matchesAll fs))
  else
    none

/-- `table("rate_limits").insert({...}).execute()`: appends one row stamped
`created_at := stamp` by the store, or `none` when unreachable. -/
def storeInsert (store : Store) (stamp : Int) (user_id action_type : String)
    (metadata : List (String × String)) : Option Store :=
  if store.reachable then
    some { store with
           records := store.records ++ [⟨user_id, action_type, stamp, metadata⟩] }
  else
    none

/-- `table("rate_limits").delete()....execute()`: removes the rows satisfying
all filters, returning them (Supabase's `result.data`) together with the
surviving store, or `none` when unreachable. -/
def storeDelete (store : Store) (fs : List QueryFilter) :
    Option (List ActionRecord × Store) :=
  if store.reachable then
    some (store.records.filter (matchesAll fs),
          { store with records := store.records.filter (fun r => !matchesAll fs r) })
  else
    none

/-- The `RateLimiter` configuration read from the environment in
`RateLimiter.__init__` (defaults 10 and 100). -/
structure RateLimiter where
  max_user_actions : Nat
  max_global_actions : Nat
  deriving Repr, DecidableEq

/-- Seconds in one local day. -/
def secondsPerDay : Int := 86400

namespace RateLimiter

/-- `RateLimiter._get_today_start`: local midnight of the current moment. -/
def get_today_start (now : Int) : Int :=
  (now / secondsPerDay) * secondsPerDay

/-- Result dictionary of the two check methods. -/
structure CheckResult where
  allowed : Bool
  remaining : Nat
  message : String
  deriving Repr, DecidableEq

/-- The query issued by `check_user_limit`. -/
def user_query (user_id action_type : String) (now : Int) : List QueryFilter :=
  [.eqUser user_id, .eqAction action_type, .gteCreated (get_today_start now)]

/-- The query issued by `check_global_limit`. -/
def global_query (action_type : String) (now : Int) : List QueryFilter :=
  [.eqAction action_type, .gteCreated (get_today_start now)]

/-- `RateLimiter.check_user_limit`. -/
def check_user_limit (rl : RateLimiter) (store : Store) (now : Int)
    (user_id action_type : String) : CheckResult :=
  match runSelect store (user_query user_id action_type now) with
  | some data =>
    let current_count := data.length
    let remaining := rl.max_user_actions - current_count
    if rl.max_user_actions ≤ current_count then
      { allowed := false, remaining := 0,
        message := "Daily limit of " ++ toString rl.max_user_actions ++
          " actions exceeded for user " ++ user_id }
    else
      { allowed := true, remaining := remaining,
        message := toString remaining ++ " actions remaining today" }
  | none =>
    { allowed := true, remaining := rl.max_user_actions,
      message := "Rate limit check failed (allowing action): <error>" }

/-- `RateLimiter.check_global_limit`. -/
def check_global_limit (rl : RateLimiter) (store : Store) (now : Int)
    (action_type : String) : CheckResult :=
  match runSelect store (global_query action_type now) with
  | some data =>
    let current_count := data.length
    let remaining := rl.max_global_actions - current_count
    if rl.max_global_actions ≤ current_count then
      { allowed := false, remaining := 0,
        message := "Global daily limit of " ++ toString rl.max_global_actions ++
          " actions exceeded" }
    else
      { allowed := true, remaining := remaining,
        message := toString remaining ++ " global actions remaining today" }
  | none =>
    { allowed := true, remaining := rl.max_global_actions,
      message := "Global rate limit check failed (allowing action): <error>" }

/-- `RateLimiter.record_action`: inserts one row (`created_at` stamped by the
store, `metadata or {}`), returning whether the insert succeeded together
with the resulting store. -/
def record_action (store : Store) (stamp : Int)
    (user_id action_type : String) (metadata : Option (List (String × String))) :
    Bool × Store :=
  match storeInsert store stamp user_id action_type (metadata.getD []) with
  | some s => (true, s)
  | none => (false, store)

/-- Result dictionary of `is_action_allowed`; `none` models Python's `None`. -/
structure AllowResult where
  allowed : Bool
  reason : String
  message : String
  user_remaining : Option Nat
  global_remaining : Option Nat
  deriving Repr, DecidableEq

/-- `RateLimiter.is_action_allowed`, instrumented with the trace of select
queries it issues against the store (in order). -/
def is_action_allowed_tr (rl : RateLimiter) (store : Store) (now : Int)
    (user_id action_type : String) : AllowResult × List (List QueryFilter) :=
  let user_check := check_user_limit rl store now user_id action_type
  if !user_check.allowed then
    ({ allowed := false, reason := "user_limit_exceeded",
       message := user_check.message,
       user_remaining := some 0, global_remaining := none },
     [user_query user_id action_type now])
  else
    let global_check := check_global_limit rl store now action_type
    if !global_check.allowed then
      ({ allowed := false, reason := "global_limit_exceeded",
         message := global_check.message,
         user_remaining := some user_check.remaining, global_remaining := some 0 },
       [user_query user_id action_type now, global_query action_type now])
    else
      ({ allowed := true, reason := "within_limits",
         message := "Action allowed",
         user_remaining := some user_check.remaining,
         global_remaining := some global_check.remaining },
       [user_query user_id action_type now, global_query action_type now])

/-- `RateLimiter.is_action_allowed` (result only). -/
def is_action_allowed (rl : RateLimiter) (store : Store) (now : Int)
    (user_id action_type : String) : AllowResult :=
  (is_action_allowed_tr rl store now user_id action_type).1

/-- `RateLimiter.cleanup_old_records`: deletes all rows strictly older than
`now - days_to_keep` days, returning the number deleted (0 on failure)
together with the resulting store. -/
def cleanup_old_records (store : Store) (now : Int) (days_to_keep : Nat) :
    Nat × Store :=
  let cutoff_date := now - (days_to_keep : Int) * secondsPerDay
  match storeDelete store [.ltCreated cutoff_date] with
  | some (deleted, s) => (deleted.length, s)
  | none => (0, store)

end RateLimiter

/-! ## Spec-side counting functions

These two definitions follow the spec's words, to be compared with what the
embedded code computes: «counts the records whose `user_id` and `action_type`
match and whose `created_at` is at or after local midnight of the current
day», and the same for all users. -/

/-- Number of records of `store` matching `user_id` and `action_type` with
`created_at` at or after `todayStart` (spec wording for the user check). -/
def userCountToday (store : Store) (user_id action_type : String)
    (todayStart : Int) : Nat :=
  (store.records.filter (fun r =>
    r.user_id == user_id && r.action_type == action_type
      && todayStart ≤ r.created_at)).length

/-- Number of records of `store` matching `action_type` (any user) with
`created_at` at or after `todayStart` (spec wording for the global check). -/
def globalCountToday (store : Store) (action_type : String)
    (todayStart : Int) : Nat :=
  (store.records.filter (fun r =>
    r.action_type == action_type && todayStart ≤ r.created_at)).length

open RateLimiter

/-! ## Bridging lemmas -/

lemma matchesAll_user_query (uid atype : String) (now : Int) (r : ActionRecord) :
    matchesAll (user_query uid atype now) r
      = (r.user_id == uid && (r.action_type == atype
          && decide (get_today_start now ≤ r.created_at))) := by
  simp [matchesAll, user_query, matchesFilter, List.all, Bool.and_assoc]

lemma matchesAll_global_query (atype : String) (now : Int) (r : ActionRecord) :
    matchesAll (global_query atype now) r
      = (r.action_type == atype && decide (get_today_start now ≤ r.created_at)) := by
  simp [matchesAll, global_query, matchesFilter, List.all]

lemma user_select_count (store : Store) (uid atype : String) (now : Int) :
    (store.records.filter (matchesAll (user_query uid atype now))).length
      = userCountToday store uid atype (get_today_start now) := by
  unfold userCountToday
  congr 1
  apply List.filter_congr
  intro r _
  rw [matchesAll_user_query, Bool.and_assoc]

lemma global_select_count (store : Store) (atype : String) (now : Int) :
    (store.records.filter (matchesAll (global_query atype now))).length
      = globalCountToday store atype (get_today_start now) := by
  unfold globalCountToday
  congr 1
  apply List.filter_congr
  intro r _
  rw [matchesAll_global_query]

lemma check_user_limit_reachable (rl : RateLimiter) (store : Store) (now : Int)
    (uid atype : String) (h : store.reachable = true) :
    check_user_limit rl store now uid atype
      = (if rl.max_user_actions ≤ userCountToday store uid atype (get_today_start now) then
           { allowed := false, remaining := 0,
             message := "Daily limit of " ++ toString rl.max_user_actions ++
               " actions exceeded for user " ++ uid }
         else
           { allowed := true,
             remaining := rl.max_user_actions
               - userCountToday store uid atype (get_today_start now),
             message := toString (rl.max_user_actions
                 - userCountToday store uid atype (get_today_start now))
               ++ " actions remaining today" }) := by
  unfold check_user_limit runSelect
  rw [h]
  simp only [if_true, user_select_count]

lemma check_global_limit_reachable (rl : RateLimiter) (store : Store) (now : Int)
    (atype : String) (h : store.reachable = true) :
    check_global_limit rl store now atype
      = (if rl.max_global_actions ≤ globalCountToday store atype (get_today_start now) then
           { allowed := false, remaining := 0,
             message := "Global daily limit of " ++ toString rl.max_global_actions ++
               " actions exceeded" }
         else
           { allowed := true,
             remaining := rl.max_global_actions
               - globalCountToday store atype (get_today_start now),
             message := toString (rl.max_global_actions
                 - globalCountToday store atype (get_today_start now))
               ++ " global actions remaining today" }) := by
  unfold check_global_limit runSelect
  rw [h]
  simp only [if_true, global_select_count]

/-! ## Claim theorems -/

/-- C2: with a reachable store, `check_user_limit` counts the records whose
`user_id` and `action_type` match and whose `created_at` is at or after local
midnight, and returns `allowed = (count < MAX_DAILY_USER_ACTIONS)` and
`remaining = max 0 (MAX_DAILY_USER_ACTIONS - count)`; with exactly the maximum
it denies with remaining 0, with one less remaining is 1, and a record at the
last second of yesterday is excluded while one at local midnight is included. -/
theorem check_user_limit_spec (rl : RateLimiter) (store : Store) (now : Int)
    (uid atype : String) (h : store.reachable = true) :
    ((check_user_limit rl store now uid atype).allowed = true
        ↔ userCountToday store uid atype (get_today_start now) < rl.max_user_actions)
    ∧ ((check_user_limit rl store now uid atype).remaining : Int)
        = max 0 ((rl.max_user_actions : Int)
            - (userCountToday store uid atype (get_today_start now) : Int))
    ∧ (userCountToday store uid atype (get_today_start now) = rl.max_user_actions
        → (check_user_limit rl store now uid atype).allowed = false
          ∧ (check_user_limit rl store now uid atype).remaining = 0)
    ∧ (userCountToday store uid atype (get_today_start now) + 1 = rl.max_user_actions
        → (check_user_limit rl store now uid atype).remaining = 1)
    ∧ userCountToday ⟨[⟨uid, atype, get_today_start now - 1, []⟩], true⟩ uid atype
        (get_today_start now) = 0
    ∧ userCountToday ⟨[⟨uid, atype, get_today_start now, []⟩], true⟩ uid atype
        (get_today_start now) = 1 := by
  have hb1 : userCountToday ⟨[⟨uid, atype, get_today_start now - 1, []⟩], true⟩
      uid atype (get_today_start now) = 0 := by
    have hts : ¬ (get_today_start now ≤ get_today_start now - 1) := by omega
    simp [userCountToday, hts]
  have hb2 : userCountToday ⟨[⟨uid, atype, get_today_start now, []⟩], true⟩
      uid atype (get_today_start now) = 1 := by
    simp [userCountToday]
  rw [check_user_limit_reachable rl store now uid atype h]
  refine ⟨?_, ?_, ?_, ?_, hb1, hb2⟩ <;>
    by_cases hle : rl.max_user_actions
        ≤ userCountToday store uid atype (get_today_start now) <;>
      simp [hle] <;> omega

theorem check_user_limit_spec_witness :
    (Store.mk [⟨"u", "a", 0, []⟩] true).reachable = true
    ∧ (((check_user_limit ⟨2, 100⟩ ⟨[⟨"u", "a", 0, []⟩], true⟩ 0 "u" "a").allowed = true
        ↔ userCountToday ⟨[⟨"u", "a", 0, []⟩], true⟩ "u" "a" (get_today_start 0)
            < (RateLimiter.mk 2 100).max_user_actions)
      ∧ ((check_user_limit ⟨2, 100⟩ ⟨[⟨"u", "a", 0, []⟩], true⟩ 0 "u" "a").remaining : Int)
          = max 0 (((RateLimiter.mk 2 100).max_user_actions : Int)
              - (userCountToday ⟨[⟨"u", "a", 0, []⟩], true⟩ "u" "a" (get_today_start 0) : Int))
      ∧ (userCountToday ⟨[⟨"u", "a", 0, []⟩], true⟩ "u" "a" (get_today_start 0)
            = (RateLimiter.mk 2 100).max_user_actions
          → (check_user_limit ⟨2, 100⟩ ⟨[⟨"u", "a", 0, []⟩], true⟩ 0 "u" "a").allowed = false
            ∧ (check_user_limit ⟨2, 100⟩ ⟨[⟨"u", "a", 0, []⟩], true⟩ 0 "u" "a").remaining = 0)
      ∧ (userCountToday ⟨[⟨"u", "a", 0, []⟩], true⟩ "u" "a" (get_today_start 0) + 1
            = (RateLimiter.mk 2 100).max_user_actions
          → (check_user_limit ⟨2, 100⟩ ⟨[⟨"u", "a", 0, []⟩], true⟩ 0 "u" "a").remaining = 1)
      ∧ userCountToday ⟨[⟨"u", "a", get_today_start 0 - 1, []⟩], true⟩ "u" "a"
          (get_today_start 0) = 0
      ∧ userCountToday ⟨[⟨"u", "a", get_today_start 0, []⟩], true⟩ "u" "a"
          (get_today_start 0) = 1) :=
  ⟨rfl, check_user_limit_spec ⟨2, 100⟩ ⟨[⟨"u", "a", 0, []⟩], true⟩ 0 "u" "a" rfl⟩

/-- C3: when the store query fails (store unreachable), `check_user_limit`
fails open with `allowed = true`, `remaining = MAX_DAILY_USER_ACTIONS` and a
message noting the failed check, and `check_global_limit` likewise with
`remaining = MAX_DAILY_GLOBAL_ACTIONS`; being total Lean functions, neither
propagates any exception. -/
theorem checks_fail_open (rl : RateLimiter) (store : Store) (now : Int)
    (uid atype : String) (h : store.reachable = false) :
    check_user_limit rl store now uid atype
      = { allowed := true, remaining := rl.max_user_actions,
          message := "Rate limit check failed (allowing action): <error>" }
    ∧ check_global_limit rl store now atype
      = { allowed := true, remaining := rl.max_global_actions,
          message := "Global rate limit check failed (allowing action): <error>" } := by
  unfold check_user_limit check_global_limit runSelect
  rw [h]
  simp

theorem checks_fail_open_witness :
    (Store.mk [] false).reachable = false
    ∧ (check_user_limit ⟨10, 100⟩ ⟨[], false⟩ 0 "u" "a"
        = { allowed := true, remaining := (RateLimiter.mk 10 100).max_user_actions,
            message := "Rate limit check failed (allowing action): <error>" }
      ∧ check_global_limit ⟨10, 100⟩ ⟨[], false⟩ 0 "a"
        = { allowed := true, remaining := (RateLimiter.mk 10 100).max_global_actions,
            message := "Global rate limit check failed (allowing action): <error>" }) :=
  ⟨rfl, checks_fail_open ⟨10, 100⟩ ⟨[], false⟩ 0 "u" "a" rfl⟩

/-- C5: with a reachable store, `check_global_limit` counts all records whose
`action_type` matches and whose `created_at` is at or after local midnight,
regardless of `user_id`, and returns `allowed = (count < MAX_DAILY_GLOBAL_ACTIONS)`
and `remaining = max 0 (MAX_DAILY_GLOBAL_ACTIONS - count)`. -/
theorem check_global_limit_spec (rl : RateLimiter) (store : Store) (now : Int)
    (atype : String) (h : store.reachable = true) :
    ((check_global_limit rl store now atype).allowed = true
        ↔ globalCountToday store atype (get_today_start now) < rl.max_global_actions)
    ∧ ((check_global_limit rl store now atype).remaining : Int)
        = max 0 ((rl.max_global_actions : Int)
            - (globalCountToday store atype (get_today_start now) : Int)) := by
  rw [check_global_limit_reachable rl store now atype h]
  constructor <;>
    by_cases hle : rl.max_global_actions
        ≤ globalCountToday store atype (get_today_start now) <;>
      simp [hle] <;> omega

theorem check_global_limit_spec_witness :
    (Store.mk [⟨"u", "a", 0, []⟩, ⟨"v", "a", 0, []⟩] true).reachable = true
    ∧ (((check_global_limit ⟨10, 2⟩ ⟨[⟨"u", "a", 0, []⟩, ⟨"v", "a", 0, []⟩], true⟩ 0 "a").allowed = true
        ↔ globalCountToday ⟨[⟨"u", "a", 0, []⟩, ⟨"v", "a", 0, []⟩], true⟩ "a" (get_today_start 0)
            < (RateLimiter.mk 10 2).max_global_actions)
      ∧ ((check_global_limit ⟨10, 2⟩ ⟨[⟨"u", "a", 0, []⟩, ⟨"v", "a", 0, []⟩], true⟩ 0 "a").remaining : Int)
          = max 0 (((RateLimiter.mk 10 2).max_global_actions : Int)
              - (globalCountToday ⟨[⟨"u", "a", 0, []⟩, ⟨"v", "a", 0, []⟩], true⟩ "a" (get_today_start 0) : Int))) :=
  ⟨rfl, check_global_limit_spec ⟨10, 2⟩ ⟨[⟨"u", "a", 0, []⟩, ⟨"v", "a", 0, []⟩], true⟩ 0 "a" rfl⟩

lemma check_user_limit_unreachable (rl : RateLimiter) (store : Store) (now : Int)
    (uid atype : String) (h : store.reachable = false) :
    check_user_limit rl store now uid atype
      = { allowed := true, remaining := rl.max_user_actions,
          message := "Rate limit check failed (allowing action): <error>" } := by
  unfold check_user_limit runSelect
  rw [h]
  simp

lemma check_global_limit_unreachable (rl : RateLimiter) (store : Store) (now : Int)
    (atype : String) (h : store.reachable = false) :
    check_global_limit rl store now atype
      = { allowed := true, remaining := rl.max_global_actions,
          message := "Global rate limit check failed (allowing action): <error>" } := by
  unfold check_global_limit runSelect
  rw [h]
  simp

/-- C1 counterexample: a store holding one matching record with
`MAX_DAILY_USER_ACTIONS = 1` makes `check_user_limit` deny, yet
`is_action_allowed` reports `global_remaining = none` (Python `None`),
not `some 0` as the claim states. -/
theorem is_action_allowed_user_denied_counterexample :
    (check_user_limit ⟨1, 100⟩ ⟨[⟨"u", "a", 0, []⟩], true⟩ 0 "u" "a").allowed = false
    ∧ (is_action_allowed ⟨1, 100⟩ ⟨[⟨"u", "a", 0, []⟩], true⟩ 0 "u" "a").allowed = false
    ∧ (is_action_allowed ⟨1, 100⟩ ⟨[⟨"u", "a", 0, []⟩], true⟩ 0 "u" "a").reason
        = "user_limit_exceeded"
    ∧ (is_action_allowed ⟨1, 100⟩ ⟨[⟨"u", "a", 0, []⟩], true⟩ 0 "u" "a").global_remaining
        = none
    ∧ (is_action_allowed ⟨1, 100⟩ ⟨[⟨"u", "a", 0, []⟩], true⟩ 0 "u" "a").global_remaining
        ≠ some 0 := by
  refine ⟨rfl, rfl, rfl, rfl, ?_⟩
  decide

/-- C1 (amended): whenever `check_user_limit` denies, `is_action_allowed`
returns `allowed = false`, `reason = "user_limit_exceeded"`,
`user_remaining = some 0`, the user check's message, and
`global_remaining = none` (Python `None`) — not `0`. -/
theorem is_action_allowed_user_denied (rl : RateLimiter) (store : Store) (now : Int)
    (uid atype : String)
    (h : (check_user_limit rl store now uid atype).allowed = false) :
    is_action_allowed rl store now uid atype
      = { allowed := false, reason := "user_limit_exceeded",
          message := (check_user_limit rl store now uid atype).message,
          user_remaining := some 0, global_remaining := none } := by
  unfold is_action_allowed is_action_allowed_tr
  simp [h]

theorem is_action_allowed_user_denied_witness :
    (check_user_limit ⟨1, 100⟩ ⟨[⟨"w", "a", 0, []⟩], true⟩ 0 "w" "a").allowed = false
    ∧ is_action_allowed ⟨1, 100⟩ ⟨[⟨"w", "a", 0, []⟩], true⟩ 0 "w" "a"
        = { allowed := false, reason := "user_limit_exceeded",
            message := (check_user_limit ⟨1, 100⟩ ⟨[⟨"w", "a", 0, []⟩], true⟩ 0 "w" "a").message,
            user_remaining := some 0, global_remaining := none } :=
  ⟨rfl, is_action_allowed_user_denied ⟨1, 100⟩ ⟨[⟨"w", "a", 0, []⟩], true⟩ 0 "w" "a" rfl⟩

/-- C4: when the user check denies, `is_action_allowed` issues only the user
query (the global query is absent from its trace), and its whole outcome,
trace included, is unchanged by replacing the store with any store agreeing
on reachability and on the records matching the user query — in particular it
is independent of other users' records for that `action_type`. -/
theorem is_action_allowed_no_global_query (rl : RateLimiter) (s s' : Store)
    (now : Int) (uid atype : String)
    (hreach : s'.reachable = s.reachable)
    (hsame : s'.records.filter (matchesAll (user_query uid atype now))
        = s.records.filter (matchesAll (user_query uid atype now)))
    (hdeny : (check_user_limit rl s now uid atype).allowed = false) :
    (is_action_allowed_tr rl s now uid atype).2 = [user_query uid atype now]
    ∧ global_query atype now ∉ (is_action_allowed_tr rl s now uid atype).2
    ∧ is_action_allowed_tr rl s' now uid atype
        = is_action_allowed_tr rl s now uid atype := by
  have hcongr : check_user_limit rl s' now uid atype
      = check_user_limit rl s now uid atype := by
    unfold check_user_limit runSelect
    rw [hreach, hsame]
  refine ⟨?_, ?_, ?_⟩
  · unfold is_action_allowed_tr
    simp [hdeny]
  · unfold is_action_allowed_tr
    simp [hdeny, user_query, global_query]
  · unfold is_action_allowed_tr
    rw [hcongr]
    simp [hdeny]

theorem is_action_allowed_no_global_query_witness :
    (Store.mk [⟨"u", "a", 0, []⟩, ⟨"v", "a", 0, []⟩] true).reachable
        = (Store.mk [⟨"u", "a", 0, []⟩] true).reachable
    ∧ (Store.mk [⟨"u", "a", 0, []⟩, ⟨"v", "a", 0, []⟩] true).records.filter
          (matchesAll (user_query "u" "a" 0))
        = (Store.mk [⟨"u", "a", 0, []⟩] true).records.filter
          (matchesAll (user_query "u" "a" 0))
    ∧ (check_user_limit ⟨1, 100⟩ ⟨[⟨"u", "a", 0, []⟩], true⟩ 0 "u" "a").allowed = false
    ∧ ((is_action_allowed_tr ⟨1, 100⟩ ⟨[⟨"u", "a", 0, []⟩], true⟩ 0 "u" "a").2
          = [user_query "u" "a" 0]
      ∧ global_query "a" 0 ∉ (is_action_allowed_tr ⟨1, 100⟩ ⟨[⟨"u", "a", 0, []⟩], true⟩ 0 "u" "a").2
      ∧ is_action_allowed_tr ⟨1, 100⟩ ⟨[⟨"u", "a", 0, []⟩, ⟨"v", "a", 0, []⟩], true⟩ 0 "u" "a"
          = is_action_allowed_tr ⟨1, 100⟩ ⟨[⟨"u", "a", 0, []⟩], true⟩ 0 "u" "a") :=
  ⟨rfl, by decide,  rfl,
   is_action_allowed_no_global_query ⟨1, 100⟩ ⟨[⟨"u", "a", 0, []⟩], true⟩
     ⟨[⟨"u", "a", 0, []⟩, ⟨"v", "a", 0, []⟩], true⟩ 0 "u" "a" rfl (by decide) rfl⟩

/-- C6: when today's records for an `action_type` across all users reach
`MAX_DAILY_GLOBAL_ACTIONS` while the given user has strictly fewer than
`MAX_DAILY_USER_ACTIONS` of them, `is_action_allowed` denies with
`reason = "global_limit_exceeded"`, a strictly positive `user_remaining`,
and `global_remaining = some 0`. -/
theorem is_action_allowed_global_denied (rl : RateLimiter) (store : Store)
    (now : Int) (uid atype : String) (h : store.reachable = true)
    (hg : rl.max_global_actions ≤ globalCountToday store atype (get_today_start now))
    (hu : userCountToday store uid atype (get_today_start now) < rl.max_user_actions) :
    (is_action_allowed rl store now uid atype).allowed = false
    ∧ (is_action_allowed rl store now uid atype).reason = "global_limit_exceeded"
    ∧ (is_action_allowed rl store now uid atype).user_remaining
        = some (rl.max_user_actions - userCountToday store uid atype (get_today_start now))
    ∧ 0 < rl.max_user_actions - userCountToday store uid atype (get_today_start now)
    ∧ (is_action_allowed rl store now uid atype).global_remaining = some 0 := by
  have hule : ¬ rl.max_user_actions
      ≤ userCountToday store uid atype (get_today_start now) := by omega
  unfold is_action_allowed is_action_allowed_tr
  rw [check_user_limit_reachable rl store now uid atype h,
    check_global_limit_reachable rl store now atype h]
  refine ⟨?_, ?_, ?_, ?_, ?_⟩ <;> simp [hule, hg]
  omega

theorem is_action_allowed_global_denied_witness :
    (Store.mk [⟨"v", "a", 0, []⟩] true).reachable = true
    ∧ (RateLimiter.mk 2 1).max_global_actions
        ≤ globalCountToday ⟨[⟨"v", "a", 0, []⟩], true⟩ "a" (get_today_start 0)
    ∧ userCountToday ⟨[⟨"v", "a", 0, []⟩], true⟩ "u" "a" (get_today_start 0)
        < (RateLimiter.mk 2 1).max_user_actions
    ∧ ((is_action_allowed ⟨2, 1⟩ ⟨[⟨"v", "a", 0, []⟩], true⟩ 0 "u" "a").allowed = false
      ∧ (is_action_allowed ⟨2, 1⟩ ⟨[⟨"v", "a", 0, []⟩], true⟩ 0 "u" "a").reason
          = "global_limit_exceeded"
      ∧ (is_action_allowed ⟨2, 1⟩ ⟨[⟨"v", "a", 0, []⟩], true⟩ 0 "u" "a").user_remaining
          = some ((RateLimiter.mk 2 1).max_user_actions
              - userCountToday ⟨[⟨"v", "a", 0, []⟩], true⟩ "u" "a" (get_today_start 0))
      ∧ 0 < (RateLimiter.mk 2 1).max_user_actions
          - userCountToday ⟨[⟨"v", "a", 0, []⟩], true⟩ "u" "a" (get_today_start 0)
      ∧ (is_action_allowed ⟨2, 1⟩ ⟨[⟨"v", "a", 0, []⟩], true⟩ 0 "u" "a").global_remaining
          = some 0) :=
  ⟨rfl, by decide, by decide,
   is_action_allowed_global_denied ⟨2, 1⟩ ⟨[⟨"v", "a", 0, []⟩], true⟩ 0 "u" "a"
     rfl (by decide) (by decide)⟩

/-- C7: `record_action` succeeds exactly when the store is reachable; on
success it appends exactly one record — `created_at` being the stamp the
store assigns, never supplied by the caller, and `metadata or {}` — and on
failure it leaves the store unchanged and returns `false`; being a total
Lean function it never raises. -/
theorem record_action_spec (store : Store) (stamp : Int) (uid atype : String)
    (md : Option (List (String × String))) :
    record_action store stamp uid atype md
      = (store.reachable,
         if store.reachable
         then { store with
                records := store.records ++ [⟨uid, atype, stamp, md.getD []⟩] }
         else store) := by
  unfold record_action storeInsert
  by_cases h : store.reachable <;> simp [h]

lemma matchesAll_ltCreated (c : Int) (r : ActionRecord) :
    matchesAll [.ltCreated c] r = decide (r.created_at < c) := by
  simp [matchesAll, matchesFilter, List.all]

lemma not_matchesAll_ltCreated (c : Int) (r : ActionRecord) :
    (!matchesAll [.ltCreated c] r) = decide (c ≤ r.created_at) := by
  rw [matchesAll_ltCreated]
  by_cases hlt : r.created_at < c
  · have hge : ¬ c ≤ r.created_at := by omega
    simp [hlt, hge]
  · have hge : c ≤ r.created_at := by omega
    simp [hlt, hge]

lemma lt_and_ge_false (c : Int) (r : ActionRecord) :
    (matchesAll [.ltCreated c] r && decide (c ≤ r.created_at)) = false := by
  rw [matchesAll_ltCreated]
  by_cases hlt : r.created_at < c
  · have hge : ¬ c ≤ r.created_at := by omega
    simp [hlt, hge]
  · simp [hlt]

lemma ge_and_ge (c : Int) (r : ActionRecord) :
    (!matchesAll [.ltCreated c] r && decide (c ≤ r.created_at))
      = decide (c ≤ r.created_at) := by
  rw [not_matchesAll_ltCreated]
  exact Bool.and_self _

lemma cleanup_eval (store : Store) (now : Int) (days_to_keep : Nat)
    (h : store.reachable = true) :
    cleanup_old_records store now days_to_keep
      = ((store.records.filter
            (matchesAll [.ltCreated (now - (days_to_keep : Int) * secondsPerDay)])).length,
         ⟨store.records.filter
            (fun r => !matchesAll [.ltCreated (now - (days_to_keep : Int) * secondsPerDay)] r),
          store.reachable⟩) := by
  unfold cleanup_old_records storeDelete
  rw [h]
  simp

/-- C8: with a reachable store, `cleanup_old_records` deletes exactly the
records with `created_at` strictly before `now - days_to_keep` days, keeps
exactly the records at or after that cutoff (newer records untouched),
returns the number deleted, and a second run with the same clock deletes 0
and changes nothing; with an unreachable store (the delete raises) it
returns 0 and leaves the records unchanged, propagating no exception. -/
theorem cleanup_old_records_spec (store : Store) (now : Int) (days_to_keep : Nat)
    (h : store.reachable = true) :
    cleanup_old_records store now days_to_keep
      = ((store.records.filter
            (fun r => r.created_at < now - (days_to_keep : Int) * secondsPerDay)).length,
         ⟨store.records.filter
            (fun r => now - (days_to_keep : Int) * secondsPerDay ≤ r.created_at),
          store.reachable⟩)
    ∧ cleanup_old_records (cleanup_old_records store now days_to_keep).2 now days_to_keep
        = (0, (cleanup_old_records store now days_to_keep).2)
    ∧ cleanup_old_records ⟨store.records, false⟩ now days_to_keep
        = (0, ⟨store.records, false⟩) := by
  have hdel : store.records.filter
        (matchesAll [.ltCreated (now - (days_to_keep : Int) * secondsPerDay)])
      = store.records.filter
        (fun r => r.created_at < now - (days_to_keep : Int) * secondsPerDay) := by
    apply List.filter_congr
    intro r _
    rw [matchesAll_ltCreated]
  have hkeep : store.records.filter
        (fun r => !matchesAll [.ltCreated (now - (days_to_keep : Int) * secondsPerDay)] r)
      = store.records.filter
        (fun r => now - (days_to_keep : Int) * secondsPerDay ≤ r.created_at) := by
    apply List.filter_congr
    intro r _
    rw [not_matchesAll_ltCreated]
  have h1 : cleanup_old_records store now days_to_keep
      = ((store.records.filter
            (fun r => r.created_at < now - (days_to_keep : Int) * secondsPerDay)).length,
         ⟨store.records.filter
            (fun r => now - (days_to_keep : Int) * secondsPerDay ≤ r.created_at),
          store.reachable⟩) := by
    rw [cleanup_eval store now days_to_keep h, hdel, hkeep]
  have hfail : cleanup_old_records ⟨store.records, false⟩ now days_to_keep
      = (0, ⟨store.records, false⟩) := by
    unfold cleanup_old_records storeDelete
    simp
  have hA : (store.records.filter
        (fun r => now - (days_to_keep : Int) * secondsPerDay ≤ r.created_at)).filter
        (matchesAll [.ltCreated (now - (days_to_keep : Int) * secondsPerDay)]) = [] := by
    rw [List.filter_filter]
    apply List.filter_eq_nil_iff.mpr
    intro a _
    simp only [lt_and_ge_false]
    exact Bool.false_ne_true
  have hB : (store.records.filter
        (fun r => now - (days_to_keep : Int) * secondsPerDay ≤ r.created_at)).filter
        (fun r => !matchesAll [.ltCreated (now - (days_to_keep : Int) * secondsPerDay)] r)
      = store.records.filter
        (fun r => now - (days_to_keep : Int) * secondsPerDay ≤ r.created_at) := by
    rw [List.filter_filter]
    apply List.filter_congr
    intro r _
    exact ge_and_ge _ r
  refine ⟨h1, ?_, hfail⟩
  rw [h1]
  rw [cleanup_eval ⟨store.records.filter
      (fun r => now - (days_to_keep : Int) * secondsPerDay ≤ r.created_at),
      store.reachable⟩ now days_to_keep h]
  rw [show (Store.mk (store.records.filter
      (fun r => now - (days_to_keep : Int) * secondsPerDay ≤ r.created_at))
      store.reachable).records = store.records.filter
      (fun r => now - (days_to_keep : Int) * secondsPerDay ≤ r.created_at) from rfl,
    hA, hB]
  rfl

theorem cleanup_old_records_spec_witness :
    (Store.mk [⟨"u", "a", -604801, []⟩, ⟨"u", "a", 0, []⟩] true).reachable = true
    ∧ (cleanup_old_records ⟨[⟨"u", "a", -604801, []⟩, ⟨"u", "a", 0, []⟩], true⟩ 0 7
        = (((Store.mk [⟨"u", "a", -604801, []⟩, ⟨"u", "a", 0, []⟩] true).records.filter
              (fun r => r.created_at < 0 - ((7 : Nat) : Int) * secondsPerDay)).length,
           ⟨(Store.mk [⟨"u", "a", -604801, []⟩, ⟨"u", "a", 0, []⟩] true).records.filter
              (fun r => 0 - ((7 : Nat) : Int) * secondsPerDay ≤ r.created_at),
            (Store.mk [⟨"u", "a", -604801, []⟩, ⟨"u", "a", 0, []⟩] true).reachable⟩)
      ∧ cleanup_old_records
            (cleanup_old_records ⟨[⟨"u", "a", -604801, []⟩, ⟨"u", "a", 0, []⟩], true⟩ 0 7).2 0 7
          = (0, (cleanup_old_records ⟨[⟨"u", "a", -604801, []⟩, ⟨"u", "a", 0, []⟩], true⟩ 0 7).2)
      ∧ cleanup_old_records
            ⟨(Store.mk [⟨"u", "a", -604801, []⟩, ⟨"u", "a", 0, []⟩] true).records, false⟩ 0 7
          = (0, ⟨(Store.mk [⟨"u", "a", -604801, []⟩, ⟨"u", "a", 0, []⟩] true).records, false⟩)) :=
  ⟨rfl, cleanup_old_records_spec ⟨[⟨"u", "a", -604801, []⟩, ⟨"u", "a", 0, []⟩], true⟩ 0 7 rfl⟩

/-- C9: `is_action_allowed` never returns `reason = "check_failed"` — the
sub-checks catch every store failure internally, so the outer handler of the
Python source is dead code — and a store outage on both sub-checks is
reported as `reason = "within_limits"` with full remaining quotas, exactly as
a healthy store on an empty day. -/
theorem is_action_allowed_never_check_failed (rl : RateLimiter) (store : Store)
    (now : Int) (uid atype : String) :
    (is_action_allowed rl store now uid atype).reason ≠ "check_failed"
    ∧ (store.reachable = false →
        is_action_allowed rl store now uid atype
          = { allowed := true, reason := "within_limits", message := "Action allowed",
              user_remaining := some rl.max_user_actions,
              global_remaining := some rl.max_global_actions }) := by
  constructor
  · unfold is_action_allowed is_action_allowed_tr
    by_cases hu : (check_user_limit rl store now uid atype).allowed <;>
      by_cases hg : (check_global_limit rl store now atype).allowed <;>
        simp [hu, hg]
  · intro h
    unfold is_action_allowed is_action_allowed_tr
    rw [check_user_limit_unreachable rl store now uid atype h,
      check_global_limit_unreachable rl store now atype h]
    simp

theorem is_action_allowed_never_check_failed_witness :
    ((is_action_allowed ⟨10, 100⟩ ⟨[], false⟩ 0 "u" "a").reason ≠ "check_failed"
      ∧ ((Store.mk [] false).reachable = false →
          is_action_allowed ⟨10, 100⟩ ⟨[], false⟩ 0 "u" "a"
            = { allowed := true, reason := "within_limits", message := "Action allowed",
                user_remaining := some (RateLimiter.mk 10 100).max_user_actions,
                global_remaining := some (RateLimiter.mk 10 100).max_global_actions }))
    ∧ is_action_allowed ⟨10, 100⟩ ⟨[], false⟩ 0 "u" "a"
        = { allowed := true, reason := "within_limits", message := "Action allowed",
            user_remaining := some 10, global_remaining := some 100 } :=
  ⟨is_action_allowed_never_check_failed ⟨10, 100⟩ ⟨[], false⟩ 0 "u" "a",
   (is_action_allowed_never_check_failed ⟨10, 100⟩ ⟨[], false⟩ 0 "u" "a").2 rfl⟩

/-- C10: provided both configured limits are at least 1, every result of
`check_user_limit` and of `check_global_limit` — fail-open branch included —
satisfies `allowed = true` exactly when `remaining > 0`. -/
theorem check_allowed_iff_remaining_pos (rl : RateLimiter) (store : Store)
    (now : Int) (uid atype : String)
    (hu : 1 ≤ rl.max_user_actions) (hg : 1 ≤ rl.max_global_actions) :
    ((check_user_limit rl store now uid atype).allowed = true
        ↔ 0 < (check_user_limit rl store now uid atype).remaining)
    ∧ ((check_global_limit rl store now atype).allowed = true
        ↔ 0 < (check_global_limit rl store now atype).remaining) := by
  cases hr : store.reachable
  · rw [check_user_limit_unreachable rl store now uid atype hr,
      check_global_limit_unreachable rl store now atype hr]
    constructor <;> simp <;> omega
  · rw [check_user_limit_reachable rl store now uid atype hr,
      check_global_limit_reachable rl store now atype hr]
    constructor
    · by_cases hle : rl.max_user_actions
          ≤ userCountToday store uid atype (get_today_start now) <;>
        simp [hle]
      omega
    · by_cases hle : rl.max_global_actions
          ≤ globalCountToday store atype (get_today_start now) <;>
        simp [hle]
      omega

theorem check_allowed_iff_remaining_pos_witness :
    1 ≤ (RateLimiter.mk 1 1).max_user_actions
    ∧ 1 ≤ (RateLimiter.mk 1 1).max_global_actions
    ∧ (((check_user_limit ⟨1, 1⟩ ⟨[⟨"u", "a", 0, []⟩], true⟩ 0 "u" "a").allowed = true
        ↔ 0 < (check_user_limit ⟨1, 1⟩ ⟨[⟨"u", "a", 0, []⟩], true⟩ 0 "u" "a").remaining)
      ∧ ((check_global_limit ⟨1, 1⟩ ⟨[⟨"u", "a", 0, []⟩], true⟩ 0 "a").allowed = true
        ↔ 0 < (check_global_limit ⟨1, 1⟩ ⟨[⟨"u", "a", 0, []⟩], true⟩ 0 "a").remaining)) :=
  ⟨Nat.le_refl 1, Nat.le_refl 1,
   check_allowed_iff_remaining_pos ⟨1, 1⟩ ⟨[⟨"u", "a", 0, []⟩], true⟩ 0 "u" "a"
     (Nat.le_refl 1) (Nat.le_refl 1)⟩
